import Mathlib

/-!
Verification of the cover-crew-matcher candidate matching engine
(supabase/functions/match-substitutes/index.ts) against its
natural-language specification.

The TypeScript edge function is shallowly embedded below.  JavaScript
numbers are modelled as real numbers.  A JavaScript value that may be
`undefined` (an absent configuration key, an unparseable coordinate
string, a null count) is modelled as an `Option`; arithmetic on an
absent value yields NaN in JavaScript, which propagates through every
later arithmetic step, and this propagation is modelled by `Option.map`
and `Option.bind` (NaN times or plus anything is NaN, and
`Math.max(0, NaN)` is NaN).  Division by a present zero speed would
yield Infinity in JavaScript while Lean division by zero yields 0; no
theorem below evaluates the model at a zero speed.  The regular
expression parse of a POINT string is modelled by its outcome, an
optional coordinate pair.  The sort is modelled by insertion sort,
which computes exactly the stable descending-by-score order required
of Array.prototype.sort with the comparator (a, b) => b.score - a.score;
the order JavaScript produces for NaN scores is implementation defined,
and no theorem below constrains the order of absent scores.
-/

namespace CoverCrew

noncomputable section

open Real

/-- Embedding of Math.atan2(y, x). -/
def atan2 (y x : ℝ) : ℝ :=
  if 0 < x then Real.arctan (y / x)
  else if x = 0 then
    (if 0 < y then Real.pi / 2 else if y < 0 then -(Real.pi / 2) else 0)
  else if 0 ≤ y then Real.arctan (y / x) + Real.pi
  else Real.arctan (y / x) - Real.pi

/-- Embedding of haversineDistance(lat1, lon1, lat2, lon2): great-circle
distance on a sphere of radius 6371 km, arguments in degrees. -/
def haversineDistance (lat1 lon1 lat2 lon2 : ℝ) : ℝ :=
  let R : ℝ := 6371
  let dLat := (lat2 - lat1) * Real.pi / 180
  let dLon := (lon2 - lon1) * Real.pi / 180
  let a :=
    Real.sin (dLat / 2) * Real.sin (dLat / 2) +
    Real.cos (lat1 * Real.pi / 180) * Real.cos (lat2 * Real.pi / 180) *
    Real.sin (dLon / 2) * Real.sin (dLon / 2)
  let c := 2 * atan2 (Real.sqrt a) (Real.sqrt (1 - a))
  R * c

/-- A fully populated logistics_rules configuration value.  The code
reads these eleven fields from the settings row value_json.  (A
partially populated rules object is not modelled; the claims only
distinguish a present, fully populated value from the absent-key
fallback, which the code takes to be the empty object.) -/
structure LogisticsRules where
  air_threshold_km : ℝ
  rail_threshold_km : ℝ
  air_speed_kmh : ℝ
  rail_speed_kmh : ℝ
  car_speed_kmh : ℝ
  air_base_cost : ℝ
  rail_base_cost : ℝ
  car_base_cost : ℝ
  air_cost_per_km : ℝ
  rail_cost_per_km : ℝ
  car_cost_per_km : ℝ

/-- Embedding of interface LogisticsResult.  eta_hours and cost_est are
optional: with the empty rules object the speed, base cost and cost per
km read as undefined and the arithmetic yields NaN, modelled none. -/
structure LogisticsResult where
  mode : String
  eta_hours : Option ℝ
  cost_est : Option ℝ
  distance_km : ℝ

/-- Embedding of calculateLogistics(fromCoords, toCoords, rules).
Coordinates are (longitude, latitude) pairs; the distance call swaps
them, exactly as the source does.  rules = none models the empty
object fallback: both threshold comparisons are then false (comparison
with undefined), the mode stays car, and eta and cost are NaN. -/
def calculateLogistics (fromCoords toCoords : ℝ × ℝ)
    (rules : Option LogisticsRules) : LogisticsResult :=
  let distance :=
    haversineDistance fromCoords.2 fromCoords.1 toCoords.2 toCoords.1
  match rules with
  | none =>
      { mode := "car", eta_hours := none, cost_est := none,
        distance_km := distance }
  | some r =>
      if r.air_threshold_km < distance then
        { mode := "air",
          eta_hours := some (distance / r.air_speed_kmh),
          cost_est := some (r.air_base_cost + distance * r.air_cost_per_km),
          distance_km := distance }
      else if r.rail_threshold_km < distance then
        { mode := "rail",
          eta_hours := some (distance / r.rail_speed_kmh),
          cost_est := some (r.rail_base_cost + distance * r.rail_cost_per_km),
          distance_km := distance }
      else
        { mode := "car",
          eta_hours := some (distance / r.car_speed_kmh),
          cost_est := some (r.car_base_cost + distance * r.car_cost_per_km),
          distance_km := distance }

/-- Embedding of line 127: speedScore = Math.max(0, Math.min(100,
(hoursUntilStart / (24 * 7)) * 100)). -/
def speedScoreOf (hoursUntilStart : ℝ) : ℝ :=
  max 0 (min 100 (hoursUntilStart / (24 * 7) * 100))

/-- Embedding of line 130: logisticsScore = Math.max(0, 100 -
(eta_hours / 24) * 50 - (cost_est / 10000) * 50). -/
def logisticsScoreOf (eta cost : ℝ) : ℝ :=
  max 0 (100 - eta / 24 * 50 - cost / 10000 * 50)

/-- Embedding of line 142: loadScore = Math.max(0, 100 -
recentAssignments * 25), where the count is a natural number. -/
def loadScoreOf (recent : ℕ) : ℝ :=
  max 0 (100 - (recent : ℝ) * 25)

/-- A scoring weight set (value_json of a scoring_weights key). -/
structure ScoringWeights where
  speed : ℝ
  logistics : ℝ
  load : ℝ

/-- The detail breakdown pushed as details_json.  The explanation
string is presentation-only number formatting (toFixed) of the three
sub-scores already present here and is not modelled. -/
structure CandidateDetails where
  speed_score : ℝ
  logistics_score : Option ℝ
  load_score : ℝ
  eta_hours : Option ℝ
  travel_cost : Option ℝ
  travel_mode : String
  distance_km : ℝ
  recent_assignments : ℕ
  weights : ScoringWeights

/-- One assignment_candidates row as built by the handler loop. -/
structure Candidate where
  request_id : String
  substitute_id : String
  score : Option ℝ
  scenario_type : String
  details_json : CandidateDetails
  logistics_json : LogisticsResult

/-- One substitute_profiles row joined with its employee: the active
pool entry.  base_coords holds the outcome of the POINT regular
expression parse; none models an unparseable location string. -/
structure Substitute where
  employee_id : String
  base_coords : Option (ℝ × ℝ)

/-- One assignment_requests row joined with its branch.  must_start_by
and period_start are epoch milliseconds (Date.getTime values);
period_start is parsed by the handler but never used. -/
structure RequestRow where
  id : String
  branch_coords : Option (ℝ × ℝ)
  must_start_by : ℝ
  period_start : ℝ

/-- The settings rows fetched for the four configuration keys.  A
field is none when the key row is absent or its value_json is null
(both behave as a falsy value_json in the source). -/
structure SettingsRows where
  logistics_rules : Option LogisticsRules
  scoring_weights : Option ScoringWeights
  scoring_weights_fast : Option ScoringWeights
  scoring_weights_near : Option ScoringWeights

/-- Embedding of line 90: logisticsRules = find(logistics_rules
row).value_json or the empty object; none models the empty object. -/
def loadLogisticsRules (s : Option SettingsRows) : Option LogisticsRules :=
  s.bind (fun rows => rows.logistics_rules)

/-- Embedding of line 91 with its inline fallback weights. -/
def loadScoringWeights (s : Option SettingsRows) : ScoringWeights :=
  (s.bind (fun rows => rows.scoring_weights)).getD ⟨0.4, 0.35, 0.25⟩

/-- Embedding of line 92 with its inline fallback weights. -/
def loadScoringWeightsFast (s : Option SettingsRows) : ScoringWeights :=
  (s.bind (fun rows => rows.scoring_weights_fast)).getD ⟨0.5, 0.35, 0.15⟩

/-- Embedding of line 93 with its inline fallback weights. -/
def loadScoringWeightsNear (s : Option SettingsRows) : ScoringWeights :=
  (s.bind (fun rows => rows.scoring_weights_near)).getD ⟨0.25, 0.6, 0.15⟩

/-- The body of the inner per-substitute loop (lines 113 to 168): parse
the substitute coordinates with the [0, 0] fallback, estimate
logistics, compute the three sub-scores, combine them with the
scenario weights, and build the candidate row.  counts is the
recent-assignment count lookup (the assignments query with the
trailing-30-day filter anchored at evaluation time); a none count
behaves as 0 through the or-zero guards in the source. -/
def buildCandidate (rid : String) (req : RequestRow)
    (branchCoords : ℝ × ℝ) (rules : Option LogisticsRules) (nowMs : ℝ)
    (counts : String → Option ℕ) (scType : String) (w : ScoringWeights)
    (sub : Substitute) : Candidate :=
  let subCoords := sub.base_coords.getD (0, 0)
  let logistics := calculateLogistics subCoords branchCoords rules
  let hoursUntilStart := (req.must_start_by - nowMs) / (1000 * 60 * 60)
  let speedScore := speedScoreOf hoursUntilStart
  let logisticsScore :=
    match logistics.eta_hours, logistics.cost_est with
    | some e, some c => some (logisticsScoreOf e c)
    | _, _ => none
  let recent := (counts sub.employee_id).getD 0
  let loadScore := loadScoreOf recent
  let score := logisticsScore.map (fun ls =>
    speedScore * w.speed + ls * w.logistics + loadScore * w.load)
  { request_id := rid,
    substitute_id := sub.employee_id,
    score := score,
    scenario_type := scType,
    details_json :=
      { speed_score := speedScore,
        logistics_score := logisticsScore,
        load_score := loadScore,
        eta_hours := logistics.eta_hours,
        travel_cost := logistics.cost_est,
        travel_mode := logistics.mode,
        distance_km := logistics.distance_km,
        recent_assignments := recent,
        weights := w },
    logistics_json := logistics }

/-- The numeric sort key of a candidate: its score when present.  The
getD branch is a model artifact for NaN scores, whose JavaScript sort
order is implementation defined; no theorem relies on it. -/
def scoreValue (c : Candidate) : ℝ :=
  c.score.getD 0

/-- The order computed by the comparator (a, b) => b.score - a.score:
descending by score. -/
def scoreDesc (a b : Candidate) : Prop :=
  scoreValue b ≤ scoreValue a

instance : DecidableRel scoreDesc :=
  fun a b => inferInstanceAs (Decidable (scoreValue b ≤ scoreValue a))

instance : IsTotal Candidate scoreDesc :=
  ⟨fun a b => le_total (scoreValue b) (scoreValue a)⟩

instance : IsTrans Candidate scoreDesc :=
  ⟨fun _ _ _ hab hbc => le_trans hbc hab⟩

/-- Embedding of line 172: candidates.sort((a, b) => b.score - a.score).
Insertion sort with the reflexive descending order is the stable sort
this comparator specifies under ECMA-262. -/
def sortCandidates (l : List Candidate) : List Candidate :=
  List.insertionSort scoreDesc l

/-- One pass of the per-scenario loop body (lines 110 to 173): build a
candidate per substitute, sort descending by score, keep the first 5. -/
def rankScenario (rid : String) (req : RequestRow) (branchCoords : ℝ × ℝ)
    (rules : Option LogisticsRules) (nowMs : ℝ)
    (counts : String → Option ℕ) (scType : String) (w : ScoringWeights)
    (subs : List Substitute) : List Candidate :=
  (sortCandidates (subs.map
    (buildCandidate rid req branchCoords rules nowMs counts scType w))).take 5

/-- The scenarios array of lines 102 to 106: the three scenario types
paired with their loaded weight sets. -/
def runScenarios (settings : Option SettingsRows) :
    List (String × ScoringWeights) :=
  [("default", loadScoringWeights settings),
   ("fast", loadScoringWeightsFast settings),
   ("near", loadScoringWeightsNear settings)]

/-- Lines 101 to 174: load the configuration, parse the branch
coordinates with the [0, 0] fallback, and concatenate the three
scenario slices in scenario order into allCandidates. -/
def computeAllCandidates (rid : String) (settings : Option SettingsRows)
    (req : RequestRow) (nowMs : ℝ) (counts : String → Option ℕ)
    (subs : List Substitute) : List Candidate :=
  let rules := loadLogisticsRules settings
  let branchCoords := req.branch_coords.getD (0, 0)
  (runScenarios settings).flatMap (fun p =>
    rankScenario rid req branchCoords rules nowMs counts p.1 p.2 subs)

/-- The persisted state touched by the handler: the
assignment_candidates rows and the status column of
assignment_requests, keyed by request id. -/
@[ext]
structure DBState where
  candidates : List Candidate
  statuses : String → String

/-- The synchronous outcome of one invocation: the success payload
(candidates_count and the scenario list) or the 500 error path. -/
inductive RunResult
  | success (candidates_count : ℕ) (scens : List String)
  | failure
deriving DecidableEq

/-- The inputs of one invocation: the request id from the body, the
outcomes of the four fetches (none models a returned error for the
request and pool fetches, and an absent row set for settings and
counts), the Date.now() value, and the outcomes of the three write
steps.  The source checks the request, pool and insert errors, and
ignores the settings, count, delete and status-update errors. -/
structure RunEnv where
  request_id : String
  reqFetch : Option RequestRow
  subsFetch : Option (List Substitute)
  settings : Option SettingsRows
  counts : String → Option ℕ
  nowMs : ℝ
  deleteOk : Bool
  insertOk : Bool
  updateOk : Bool

/-- Embedding of the serve handler (lines 55 to 212).  A failed request
or pool fetch throws before any write.  The delete step filters out the
rows of this request when it succeeds and, because its error object is
never read, leaves the state unchanged and falls through when it fails.
The insert runs only for a nonempty allCandidates and throws on error,
after the delete.  The status update error is likewise ignored. -/
def runMatch (env : RunEnv) (st : DBState) : DBState × RunResult :=
  match env.reqFetch with
  | none => (st, RunResult.failure)
  | some req =>
    match env.subsFetch with
    | none => (st, RunResult.failure)
    | some subs =>
      let allCandidates :=
        computeAllCandidates env.request_id env.settings req env.nowMs
          env.counts subs
      let st1 :=
        if env.deleteOk then
          { st with candidates :=
              st.candidates.filter (fun c => c.request_id ≠ env.request_id) }
        else st
      if 0 < allCandidates.length then
        if env.insertOk then
          let st2 := { st1 with candidates := st1.candidates ++ allCandidates }
          let st3 :=
            if env.updateOk then
              { st2 with statuses := fun i =>
                  if i = env.request_id then "matching" else st2.statuses i }
            else st2
          (st3, RunResult.success allCandidates.length
            ["default", "fast", "near"])
        else (st1, RunResult.failure)
      else
        let st3 :=
          if env.updateOk then
            { st1 with statuses := fun i =>
                if i = env.request_id then "matching" else st1.statuses i }
          else st1
        (st3, RunResult.success allCandidates.length
          ["default", "fast", "near"])

/-- The logistics_rules default documented by the specification. -/
def documentedLogisticsRules : LogisticsRules :=
  { air_threshold_km := 1500, rail_threshold_km := 200,
    air_speed_kmh := 700, rail_speed_kmh := 80, car_speed_kmh := 60,
    air_base_cost := 5000, rail_base_cost := 1500, car_base_cost := 500,
    air_cost_per_km := 3, rail_cost_per_km := 1, car_cost_per_km := 0.5 }

/-- A rules value whose air threshold lies below its rail threshold. -/
def adversarialRules : LogisticsRules :=
  { documentedLogisticsRules with
      air_threshold_km := -1, rail_threshold_km := 0 }

/-- The documented rules with the rail threshold lowered to zero. -/
def railZeroRules : LogisticsRules :=
  { documentedLogisticsRules with rail_threshold_km := 0 }

/-- A rules value with a negative car speed and a zero cost model. -/
def negSpeedRules : LogisticsRules :=
  { air_threshold_km := 1000000, rail_threshold_km := 1000000,
    air_speed_kmh := 700, rail_speed_kmh := 80, car_speed_kmh := -1,
    air_base_cost := 0, rail_base_cost := 0, car_base_cost := 0,
    air_cost_per_km := 0, rail_cost_per_km := 0, car_cost_per_km := 0 }

/-- Settings rows holding only the logistics_rules key. -/
def goodSettings : SettingsRows :=
  { logistics_rules := some documentedLogisticsRules,
    scoring_weights := none, scoring_weights_fast := none,
    scoring_weights_near := none }

/-- A concrete request row at the origin branch. -/
def reqR1 : RequestRow :=
  { id := "r1", branch_coords := some (0, 0), must_start_by := 0,
    period_start := 0 }

/-- A concrete substitute with a parseable location at the origin. -/
def subS1 : Substitute :=
  { employee_id := "s1", base_coords := some (0, 0) }

/-- A concrete substitute whose location string failed to parse. -/
def subBad : Substitute :=
  { employee_id := "s1", base_coords := none }

/-- A concrete substitute antipodal to the origin branch. -/
def subFar : Substitute :=
  { employee_id := "s1", base_coords := some (180, 0) }

/-- A candidate row left over from an earlier matching run. -/
def oldCand : Candidate :=
  { request_id := "r1", substitute_id := "old", score := some 50,
    scenario_type := "default",
    details_json :=
      { speed_score := 0, logistics_score := some 0, load_score := 0,
        eta_hours := some 0, travel_cost := some 0, travel_mode := "car",
        distance_km := 0, recent_assignments := 0,
        weights := ⟨0.4, 0.35, 0.25⟩ },
    logistics_json :=
      { mode := "car", eta_hours := some 0, cost_est := some 0,
        distance_km := 0 } }

/-- A persisted state holding one prior candidate for request r1. -/
def stPrior : DBState :=
  { candidates := [oldCand], statuses := fun _ => "open" }

/-- A persisted state with no candidates. -/
def stEmpty : DBState :=
  { candidates := [], statuses := fun _ => "open" }

/-- A run in which every fetch succeeds, the delete succeeds and the
insert step fails. -/
def envInsertFail : RunEnv :=
  { request_id := "r1", reqFetch := some reqR1, subsFetch := some [subS1],
    settings := some goodSettings, counts := fun _ => some 0, nowMs := 0,
    deleteOk := true, insertOk := false, updateOk := true }

/-- A run in which the delete step fails (its error object is never
read by the handler) and every other step succeeds. -/
def envDeleteFail : RunEnv :=
  { envInsertFail with deleteOk := false, insertOk := true }

/-- A fully healthy run over a pool holding one substitute whose
location string failed to parse. -/
def envC6 : RunEnv :=
  { request_id := "r1", reqFetch := some reqR1, subsFetch := some [subBad],
    settings := some goodSettings, counts := fun _ => some 0, nowMs := 0,
    deleteOk := true, insertOk := true, updateOk := true }

/-- A fully healthy run over an empty substitute pool. -/
def envEmptyPool : RunEnv :=
  { request_id := "r1", reqFetch := some reqR1, subsFetch := some [],
    settings := none, counts := fun _ => none, nowMs := 0,
    deleteOk := true, insertOk := true, updateOk := true }

/-- The persisted candidate rows of one request and scenario type. -/
def scenarioSlice (rid t : String) (l : List Candidate) : List Candidate :=
  l.filter (fun c => c.request_id = rid ∧ c.scenario_type = t)

end

/-! Helper lemmas about the geodesic layer. -/

theorem hav_a_symm (lat1 lon1 lat2 lon2 : ℝ) :
    Real.sin ((lat2 - lat1) * Real.pi / 180 / 2) *
        Real.sin ((lat2 - lat1) * Real.pi / 180 / 2) +
      Real.cos (lat1 * Real.pi / 180) * Real.cos (lat2 * Real.pi / 180) *
        Real.sin ((lon2 - lon1) * Real.pi / 180 / 2) *
        Real.sin ((lon2 - lon1) * Real.pi / 180 / 2) =
    Real.sin ((lat1 - lat2) * Real.pi / 180 / 2) *
        Real.sin ((lat1 - lat2) * Real.pi / 180 / 2) +
      Real.cos (lat2 * Real.pi / 180) * Real.cos (lat1 * Real.pi / 180) *
        Real.sin ((lon1 - lon2) * Real.pi / 180 / 2) *
        Real.sin ((lon1 - lon2) * Real.pi / 180 / 2) := by
  have h1 : (lat1 - lat2) * Real.pi / 180 / 2 =
      -((lat2 - lat1) * Real.pi / 180 / 2) := by ring
  have h2 : (lon1 - lon2) * Real.pi / 180 / 2 =
      -((lon2 - lon1) * Real.pi / 180 / 2) := by ring
  rw [h1, h2, Real.sin_neg, Real.sin_neg]
  ring

theorem haversine_symm (lat1 lon1 lat2 lon2 : ℝ) :
    haversineDistance lat1 lon1 lat2 lon2 =
      haversineDistance lat2 lon2 lat1 lon1 := by
  simp only [haversineDistance]
  rw [hav_a_symm]

theorem haversine_self (lat lon : ℝ) :
    haversineDistance lat lon lat lon = 0 := by
  simp only [haversineDistance]
  have h0 : (lat - lat) * Real.pi / 180 / 2 = 0 := by ring
  have h0' : (lon - lon) * Real.pi / 180 / 2 = 0 := by ring
  rw [h0, h0', Real.sin_zero]
  norm_num [atan2, Real.arctan_zero]

theorem atan2_eq_zero_imp {y x : ℝ} (hy : 0 ≤ y) (h : atan2 y x = 0) :
    y = 0 := by
  unfold atan2 at h
  by_cases hx : 0 < x
  · rw [if_pos hx] at h
    rcases div_eq_zero_iff.mp (Real.arctan_eq_zero_iff.mp h) with h0 | h0
    · exact h0
    · exact absurd h0 (ne_of_gt hx)
  · rw [if_neg hx] at h
    by_cases hx0 : x = 0
    · rw [if_pos hx0] at h
      by_cases hy0 : 0 < y
      · rw [if_pos hy0] at h
        exact absurd h (by positivity)
      · exact le_antisymm (not_lt.mp hy0) hy
    · rw [if_neg hx0, if_pos hy] at h
      have harc := Real.neg_pi_div_two_lt_arctan (y / x)
      have hpi := Real.pi_pos
      linarith [h]

theorem haversine_eq_zero_iff {lat1 lon1 lat2 lon2 : ℝ}
    (ha1 : -90 < lat1) (hb1 : lat1 < 90) (ha2 : -90 < lat2) (hb2 : lat2 < 90)
    (hlon : |lon1 - lon2| < 360) :
    haversineDistance lat1 lon1 lat2 lon2 = 0 ↔ lat1 = lat2 ∧ lon1 = lon2 := by
  have hpi := Real.pi_pos
  have habs := abs_lt.mp hlon
  constructor
  · intro h
    simp only [haversineDistance] at h
    have hc1 : 0 < Real.cos (lat1 * Real.pi / 180) :=
      Real.cos_pos_of_mem_Ioo
        ⟨by nlinarith [mul_pos (show (0:ℝ) < lat1 + 90 by linarith) hpi],
         by nlinarith [mul_pos (show (0:ℝ) < 90 - lat1 by linarith) hpi]⟩
    have hc2 : 0 < Real.cos (lat2 * Real.pi / 180) :=
      Real.cos_pos_of_mem_Ioo
        ⟨by nlinarith [mul_pos (show (0:ℝ) < lat2 + 90 by linarith) hpi],
         by nlinarith [mul_pos (show (0:ℝ) < 90 - lat2 by linarith) hpi]⟩
    set s1 := Real.sin ((lat2 - lat1) * Real.pi / 180 / 2) with hs1def
    set s2 := Real.sin ((lon2 - lon1) * Real.pi / 180 / 2) with hs2def
    set c1 := Real.cos (lat1 * Real.pi / 180) with hc1def
    set c2 := Real.cos (lat2 * Real.pi / 180) with hc2def
    have h2nn : 0 ≤ c1 * c2 * s2 * s2 := by
      nlinarith [mul_self_nonneg s2, mul_pos hc1 hc2]
    have hAnn : 0 ≤ s1 * s1 + c1 * c2 * s2 * s2 := by
      nlinarith [mul_self_nonneg s1]
    have hA0 : s1 * s1 + c1 * c2 * s2 * s2 = 0 := by
      have hz : atan2 (Real.sqrt (s1 * s1 + c1 * c2 * s2 * s2))
          (Real.sqrt (1 - (s1 * s1 + c1 * c2 * s2 * s2))) = 0 := by linarith
      have h0 := atan2_eq_zero_imp (Real.sqrt_nonneg _) hz
      have hle := Real.sqrt_eq_zero'.mp h0
      linarith
    have hs1z : s1 = 0 := by
      have h11 : s1 * s1 = 0 :=
        le_antisymm (by linarith) (mul_self_nonneg s1)
      exact mul_self_eq_zero.mp h11
    have hs2z : s2 = 0 := by
      have h22 : c1 * c2 * s2 * s2 = 0 := by
        linarith [mul_self_nonneg s1]
      have h2z : s2 * s2 = 0 :=
        le_antisymm (by nlinarith [mul_pos hc1 hc2]) (mul_self_nonneg s2)
      exact mul_self_eq_zero.mp h2z
    rw [hs1def] at hs1z
    rw [hs2def] at hs2z
    have hlat : lat1 = lat2 := by
      have harg := (Real.sin_eq_zero_iff_of_lt_of_lt
        (by nlinarith [mul_pos (show (0:ℝ) < lat2 - lat1 + 360 by linarith) hpi])
        (by nlinarith [mul_pos (show (0:ℝ) < 360 - (lat2 - lat1) by linarith) hpi])).mp
        hs1z
      have hz2 : (lat2 - lat1) * Real.pi = 0 := by linarith
      rcases mul_eq_zero.mp hz2 with hz3 | hz3
      · linarith
      · exact absurd hz3 (ne_of_gt hpi)
    have hlon2 : lon1 = lon2 := by
      have harg := (Real.sin_eq_zero_iff_of_lt_of_lt
        (by nlinarith [mul_pos (show (0:ℝ) < lon2 - lon1 + 360 by linarith) hpi])
        (by nlinarith [mul_pos (show (0:ℝ) < 360 - (lon2 - lon1) by linarith) hpi])).mp
        hs2z
      have hz2 : (lon2 - lon1) * Real.pi = 0 := by linarith
      rcases mul_eq_zero.mp hz2 with hz3 | hz3
      · linarith
      · exact absurd hz3 (ne_of_gt hpi)
    exact ⟨hlat, hlon2⟩
  · rintro ⟨h1, h2⟩
    subst h1
    subst h2
    exact haversine_self lat1 lon1

/-- C9 counterexample: the two pole points (lat 90, lon 0) and
(lat 90, lon 90) are distinct coordinate pairs whose haversine
distance is exactly zero, so zero distance does not imply equal
coordinates. -/
theorem c9_counterexample :
    haversineDistance 90 0 90 90 = 0 ∧
      ((90:ℝ), (0:ℝ)) ≠ ((90:ℝ), (90:ℝ)) := by
  constructor
  · simp only [haversineDistance]
    have h0 : ((90:ℝ) - 90) * Real.pi / 180 / 2 = 0 := by ring
    have hc : (90:ℝ) * Real.pi / 180 = Real.pi / 2 := by ring
    rw [h0, hc, Real.sin_zero, Real.cos_pi_div_two]
    norm_num [atan2, Real.arctan_zero]
  · norm_num [Prod.ext_iff]

/-- C9 (amended): the haversine distance is symmetric and vanishes on
equal coordinate pairs; zero distance implies equal coordinates on the
open coordinate domain (latitudes strictly between -90 and 90 and
longitudes differing by less than 360), but not for arbitrary pairs,
since distinct pole coordinates are at distance zero. -/
theorem c9_haversine_symm_self_zero :
    (∀ lat1 lon1 lat2 lon2 : ℝ,
      haversineDistance lat1 lon1 lat2 lon2 =
        haversineDistance lat2 lon2 lat1 lon1) ∧
    (∀ lat lon : ℝ, haversineDistance lat lon lat lon = 0) ∧
    (∀ lat1 lon1 lat2 lon2 : ℝ, -90 < lat1 → lat1 < 90 → -90 < lat2 →
      lat2 < 90 → |lon1 - lon2| < 360 →
      (haversineDistance lat1 lon1 lat2 lon2 = 0 ↔
        lat1 = lat2 ∧ lon1 = lon2)) :=
  ⟨haversine_symm, haversine_self,
    fun _ _ _ _ h1 h2 h3 h4 h5 => haversine_eq_zero_iff h1 h2 h3 h4 h5⟩

/-- C9 witness: the amended theorem instantiated at the origin, whose
domain hypotheses hold. -/
theorem c9_witness :
    ((-90:ℝ) < 0 ∧ (0:ℝ) < 90 ∧ |(0:ℝ) - 0| < 360) ∧
    (haversineDistance 0 0 0 0 = 0 ↔ ((0:ℝ) = 0 ∧ (0:ℝ) = 0)) :=
  ⟨by norm_num,
   c9_haversine_symm_self_zero.2.2 0 0 0 0 (by norm_num) (by norm_num)
     (by norm_num) (by norm_num) (by norm_num)⟩

theorem hav_antipodal : haversineDistance 0 0 0 180 = 6371 * Real.pi := by
  simp only [haversineDistance]
  have h1 : ((0:ℝ) - 0) * Real.pi / 180 / 2 = 0 := by ring
  have h2 : ((180:ℝ) - 0) * Real.pi / 180 / 2 = Real.pi / 2 := by ring
  have h3 : (0:ℝ) * Real.pi / 180 = 0 := by ring
  rw [h1, h2, h3, Real.sin_zero, Real.cos_zero, Real.sin_pi_div_two]
  norm_num [atan2]
  ring

/-- C3 counterexample: with rules whose air threshold (-1) lies below
the rail threshold (0), a substitute at exactly the rail threshold
distance (0 km) resolves to air mode, not car mode, because the air
comparison is evaluated first. -/
theorem c3_counterexample :
    (calculateLogistics (0, 0) (0, 0) (some adversarialRules)).distance_km =
        adversarialRules.rail_threshold_km ∧
    (calculateLogistics (0, 0) (0, 0) (some adversarialRules)).mode = "air" ∧
    ("air" : String) ≠ "car" := by
  refine ⟨?_, ?_, by decide⟩
  · norm_num [calculateLogistics, adversarialRules, documentedLogisticsRules,
      haversine_self]
  · norm_num [calculateLogistics, adversarialRules, documentedLogisticsRules,
      haversine_self]

/-- C3 (amended): the travel mode follows the fixed strict greater-than
threshold priority of the source, and a substitute at exactly the rail
threshold distance resolves to car mode provided the rail threshold
does not exceed the air threshold (which holds for the documented
default rules); without that proviso the air branch can fire at the
rail threshold. -/
theorem c3_mode_selection :
    (∀ fromCoords toCoords : ℝ × ℝ, ∀ r : LogisticsRules,
      (calculateLogistics fromCoords toCoords (some r)).mode =
        if r.air_threshold_km <
            haversineDistance fromCoords.2 fromCoords.1 toCoords.2 toCoords.1
        then "air"
        else
          if r.rail_threshold_km <
              haversineDistance fromCoords.2 fromCoords.1 toCoords.2
                toCoords.1
          then "rail" else "car") ∧
    (∀ fromCoords toCoords : ℝ × ℝ, ∀ r : LogisticsRules,
      haversineDistance fromCoords.2 fromCoords.1 toCoords.2 toCoords.1 =
        r.rail_threshold_km →
      r.rail_threshold_km ≤ r.air_threshold_km →
      (calculateLogistics fromCoords toCoords (some r)).mode = "car") := by
  constructor
  · intro f t r
    simp only [calculateLogistics]
    split_ifs <;> rfl
  · intro f t r hd hle
    simp only [calculateLogistics]
    rw [hd, if_neg (not_lt.mpr hle), if_neg (lt_irrefl _)]

/-- C3 witness: the amended theorem applied to rules with a zero rail
threshold below the documented air threshold, at zero distance. -/
theorem c3_witness :
    (haversineDistance ((0:ℝ), (0:ℝ)).2 ((0:ℝ), (0:ℝ)).1 ((0:ℝ), (0:ℝ)).2
        ((0:ℝ), (0:ℝ)).1 = railZeroRules.rail_threshold_km ∧
      railZeroRules.rail_threshold_km ≤ railZeroRules.air_threshold_km) ∧
    (calculateLogistics (0, 0) (0, 0) (some railZeroRules)).mode = "car" :=
  ⟨⟨by norm_num [railZeroRules, documentedLogisticsRules, haversine_self],
    by norm_num [railZeroRules, documentedLogisticsRules]⟩,
   c3_mode_selection.2 (0, 0) (0, 0) railZeroRules
     (by norm_num [railZeroRules, documentedLogisticsRules, haversine_self])
     (by norm_num [railZeroRules, documentedLogisticsRules])⟩

/-- C5 counterexample: with the logistics_rules key absent the code
falls back to the empty object, not to the documented default rules:
at the antipodal distance (greater than the documented 1500 km air
threshold) the documented rules select air mode, while the absent-key
fallback selects car mode with NaN eta. -/
theorem c5_counterexample :
    loadLogisticsRules none ≠ some documentedLogisticsRules ∧
    (calculateLogistics (0, 0) (180, 0) (loadLogisticsRules none)).mode =
      "car" ∧
    (calculateLogistics (0, 0) (180, 0)
        (loadLogisticsRules none)).eta_hours = none ∧
    (calculateLogistics (0, 0) (180, 0)
        (some documentedLogisticsRules)).mode = "air" := by
  refine ⟨by simp [loadLogisticsRules], rfl, rfl, ?_⟩
  simp only [calculateLogistics]
  rw [show haversineDistance ((0:ℝ), (0:ℝ)).2 ((0:ℝ), (0:ℝ)).1
      ((180:ℝ), (0:ℝ)).2 ((180:ℝ), (0:ℝ)).1 = 6371 * Real.pi
    from hav_antipodal]
  rw [if_pos (show documentedLogisticsRules.air_threshold_km <
      6371 * Real.pi by
    simp only [documentedLogisticsRules]
    nlinarith [Real.pi_gt_three])]

theorem runMatch_not_failure (env : RunEnv) (st : DBState) (req : RequestRow)
    (subs : List Substitute) (h1 : env.reqFetch = some req)
    (h2 : env.subsFetch = some subs) (h4 : env.insertOk = true) :
    (runMatch env st).2 =
      RunResult.success
        (computeAllCandidates env.request_id env.settings req env.nowMs
          env.counts subs).length ["default", "fast", "near"] := by
  simp only [runMatch, h1, h2, h4, if_true]
  split_ifs <;> rfl

/-- C5 (amended): the three scoring weight keys fall back to the
documented default weight sets when absent, and an absent
configuration key does not fail the run; the logistics_rules key,
however, falls back to the empty object (modelled none), not to the
documented default rules. -/
theorem c5_weight_fallbacks :
    loadScoringWeights none = ⟨0.4, 0.35, 0.25⟩ ∧
    loadScoringWeightsFast none = ⟨0.5, 0.35, 0.15⟩ ∧
    loadScoringWeightsNear none = ⟨0.25, 0.6, 0.15⟩ ∧
    (∀ rows : SettingsRows, rows.scoring_weights = none →
      loadScoringWeights (some rows) = ⟨0.4, 0.35, 0.25⟩) ∧
    (∀ rows : SettingsRows, rows.logistics_rules = none →
      loadLogisticsRules (some rows) = none) ∧
    loadLogisticsRules none = none ∧
    (∀ env : RunEnv, ∀ st : DBState, ∀ req : RequestRow,
      ∀ subs : List Substitute, env.reqFetch = some req →
      env.subsFetch = some subs → env.insertOk = true →
      (runMatch env st).2 ≠ RunResult.failure) := by
  refine ⟨rfl, rfl, rfl, ?_, ?_, rfl, ?_⟩
  · intro rows h
    simp [loadScoringWeights, h]
  · intro rows h
    simp [loadLogisticsRules, h]
  · intro env st req subs h1 h2 h4
    rw [runMatch_not_failure env st req subs h1 h2 h4]
    simp

/-- C5 witness: the fallback lemmas applied to settings rows holding
only the logistics_rules key, and to a healthy run. -/
theorem c5_witness :
    (goodSettings.scoring_weights = none ∧
      envDeleteFail.reqFetch = some reqR1 ∧
      envDeleteFail.subsFetch = some [subS1] ∧
      envDeleteFail.insertOk = true) ∧
    loadScoringWeights (some goodSettings) = ⟨0.4, 0.35, 0.25⟩ ∧
    (runMatch envDeleteFail stEmpty).2 ≠ RunResult.failure :=
  ⟨⟨rfl, rfl, rfl, rfl⟩,
   c5_weight_fallbacks.2.2.2.1 goodSettings rfl,
   c5_weight_fallbacks.2.2.2.2.2.2 envDeleteFail stEmpty reqR1 [subS1] rfl
     rfl rfl⟩

/-- C7: a run on an existing request with an empty active pool
completes successfully, reports candidates_count 0 with all three
scenarios, and still transitions the request status to matching. -/
theorem c7_empty_pool (env : RunEnv) (st : DBState) (req : RequestRow)
    (h1 : env.reqFetch = some req) (h2 : env.subsFetch = some [])
    (h3 : env.updateOk = true) :
    (runMatch env st).2 = RunResult.success 0 ["default", "fast", "near"] ∧
    (runMatch env st).1.statuses env.request_id = "matching" := by
  have hempty : computeAllCandidates env.request_id env.settings req
      env.nowMs env.counts [] = [] := rfl
  simp only [runMatch, h1, h2, hempty, h3, List.length_nil,
    lt_self_iff_false, if_false, if_true]
  constructor <;> simp

/-- C7 witness: the theorem applied to the healthy empty-pool run. -/
theorem c7_witness :
    (envEmptyPool.reqFetch = some reqR1 ∧ envEmptyPool.subsFetch = some [] ∧
      envEmptyPool.updateOk = true) ∧
    (runMatch envEmptyPool stEmpty).2 =
      RunResult.success 0 ["default", "fast", "near"] ∧
    (runMatch envEmptyPool stEmpty).1.statuses envEmptyPool.request_id =
      "matching" :=
  ⟨⟨rfl, rfl, rfl⟩, c7_empty_pool envEmptyPool stEmpty reqR1 rfl rfl rfl⟩

/-- C6 counterexample: a healthy run over a pool holding exactly one
substitute whose location failed to parse does not skip it: the run
succeeds, and the substitute appears in the candidate list of every
one of the three scenarios. -/
theorem c6_counterexample :
    (runMatch envC6 stEmpty).1.candidates.map (fun c => c.substitute_id) =
      ["s1", "s1", "s1"] ∧
    (runMatch envC6 stEmpty).1.candidates.map (fun c => c.scenario_type) =
      ["default", "fast", "near"] ∧
    (runMatch envC6 stEmpty).2 =
      RunResult.success 3 ["default", "fast", "near"] ∧
    subBad.base_coords = none :=
  ⟨rfl, rfl, rfl, rfl⟩

/-- C6 (amended): a malformed substitute location neither aborts the
run nor removes the substitute from the pool: the substitute is scored
exactly as if its base coordinates were (0, 0), and the run still
succeeds. -/
theorem c6_malformed_coords_fallback :
    (∀ rid : String, ∀ req : RequestRow, ∀ bc : ℝ × ℝ,
      ∀ rules : Option LogisticsRules, ∀ nowMs : ℝ,
      ∀ counts : String → Option ℕ, ∀ scType : String,
      ∀ w : ScoringWeights, ∀ sub : Substitute, sub.base_coords = none →
      buildCandidate rid req bc rules nowMs counts scType w sub =
        buildCandidate rid req bc rules nowMs counts scType w
          { sub with base_coords := some (0, 0) }) ∧
    (∀ env : RunEnv, ∀ st : DBState, ∀ req : RequestRow,
      ∀ subs : List Substitute, env.reqFetch = some req →
      env.subsFetch = some subs → env.insertOk = true →
      (runMatch env st).2 ≠ RunResult.failure) := by
  constructor
  · intro rid req bc rules nowMs counts scType w sub h
    simp only [buildCandidate, h, Option.getD_none, Option.getD_some]
  · intro env st req subs h1 h2 h4
    rw [runMatch_not_failure env st req subs h1 h2 h4]
    simp

/-- C6 witness: the fallback equation applied to the substitute with
the unparseable location, and the run over the pool holding it. -/
theorem c6_witness :
    (subBad.base_coords = none ∧ envC6.reqFetch = some reqR1 ∧
      envC6.subsFetch = some [subBad] ∧ envC6.insertOk = true) ∧
    buildCandidate "r1" reqR1 (0, 0) (some documentedLogisticsRules) 0
        (fun _ => some 0) "default" ⟨0.4, 0.35, 0.25⟩ subBad =
      buildCandidate "r1" reqR1 (0, 0) (some documentedLogisticsRules) 0
        (fun _ => some 0) "default" ⟨0.4, 0.35, 0.25⟩
        { subBad with base_coords := some (0, 0) } ∧
    (runMatch envC6 stEmpty).2 ≠ RunResult.failure :=
  ⟨⟨rfl, rfl, rfl, rfl⟩,
   c6_malformed_coords_fallback.1 "r1" reqR1 (0, 0)
     (some documentedLogisticsRules) 0 (fun _ => some 0) "default"
     ⟨0.4, 0.35, 0.25⟩ subBad rfl,
   c6_malformed_coords_fallback.2 envC6 stEmpty reqR1 [subBad] rfl rfl rfl⟩

/-- C4 counterexample: the logistics sub-score is not clamped above:
at eta -24 hours and cost 0 the formula yields 150, and in the full
pipeline a rules value with negative car speed makes the recorded
logistics sub-score exceed 100. -/
theorem c4_counterexample :
    logisticsScoreOf (-24) 0 = 150 ∧ ¬ logisticsScoreOf (-24) 0 ≤ 100 ∧
    100 < (buildCandidate "r1" reqR1 (0, 0) (some negSpeedRules) 0
        (fun _ => some 0) "default" ⟨0.4, 0.35, 0.25⟩
        subFar).details_json.logistics_score.getD 0 := by
  refine ⟨by norm_num [logisticsScoreOf, max_def],
    by norm_num [logisticsScoreOf, max_def], ?_⟩
  simp only [buildCandidate, subFar, calculateLogistics, negSpeedRules,
    Option.getD_some]
  rw [(haversine_symm 0 180 0 0).trans hav_antipodal]
  rw [if_neg (show ¬((1000000:ℝ) < 6371 * Real.pi) by
      nlinarith [Real.pi_lt_d2]),
    if_neg (show ¬((1000000:ℝ) < 6371 * Real.pi) by
      nlinarith [Real.pi_lt_d2])]
  simp only [Option.getD_some, logisticsScoreOf]
  have hx : (100:ℝ) < 100 - 6371 * Real.pi / -1 / 24 * 50 -
      (0 + 6371 * Real.pi * 0) / 10000 * 50 := by
    nlinarith [Real.pi_pos]
  exact lt_of_lt_of_le hx (le_max_right _ _)

/-- C4 (amended): the speed sub-score always lies in [0, 100]; the load
sub-score lies in [0, 100] for every natural recent-assignment count;
the logistics sub-score is clamped below at 0 for every input and lies
in [0, 100] whenever eta and cost are nonnegative, but carries no upper
clamp for negative eta or cost. -/
theorem c4_subscore_bounds (h eta cost : ℝ) (n : ℕ) :
    (0 ≤ speedScoreOf h ∧ speedScoreOf h ≤ 100) ∧
    (0 ≤ loadScoreOf n ∧ loadScoreOf n ≤ 100) ∧
    0 ≤ logisticsScoreOf eta cost ∧
    (0 ≤ eta → 0 ≤ cost → logisticsScoreOf eta cost ≤ 100) := by
  refine ⟨⟨le_max_left 0 _, ?_⟩, ⟨le_max_left 0 _, ?_⟩, le_max_left 0 _, ?_⟩
  · exact max_le (by norm_num) (min_le_left 100 _)
  · refine max_le (by norm_num) ?_
    have hn : (0:ℝ) ≤ (n : ℝ) := Nat.cast_nonneg n
    nlinarith
  · intro he hc
    refine max_le (by norm_num) ?_
    have h1 : 0 ≤ eta / 24 * 50 := by positivity
    have h2 : 0 ≤ cost / 10000 * 50 := by positivity
    linarith

/-- C4 witness: the bounds applied at zero eta and cost, where the
nonnegativity hypotheses hold. -/
theorem c4_witness :
    ((0:ℝ) ≤ 0) ∧ logisticsScoreOf 0 0 ≤ 100 :=
  ⟨le_refl 0, (c4_subscore_bounds 0 0 0 0).2.2.2 (le_refl 0) (le_refl 0)⟩

/-- C1: the replace step is not all-or-nothing.  When the delete
succeeds and the insert fails, the run reports failure but the prior
candidate set has been destroyed; when the delete fails (its error
object is never read by the handler) and the insert succeeds, the run
reports success with a mixed old-plus-new candidate set. -/
theorem c1_replace_not_atomic :
    stPrior.candidates ≠ [] ∧
    (runMatch envInsertFail stPrior).2 = RunResult.failure ∧
    (runMatch envInsertFail stPrior).1.candidates = [] ∧
    (runMatch envDeleteFail stPrior).2 =
      RunResult.success 3 ["default", "fast", "near"] ∧
    (runMatch envDeleteFail stPrior).1.candidates.map
        (fun c => c.substitute_id) = ["old", "s1", "s1", "s1"] :=
  ⟨by simp [stPrior], rfl, rfl, rfl, rfl⟩

/-- C10: within one run with fixed inputs, the candidate rows built for
the same substitute under two scenarios agree on every recorded detail
(sub-scores, eta, cost, mode, distance, recent-assignment count) and on
the whole derived logistics record; only the recorded weight set and
the final weighted score distinguish the scenarios, and the final score
is exactly the weighted combination of the shared sub-scores with the
scenario's own weights. -/
theorem c10_details_scenario_invariant (rid : String) (req : RequestRow)
    (bc : ℝ × ℝ) (rules : Option LogisticsRules) (nowMs : ℝ)
    (counts : String → Option ℕ) (t1 t2 : String) (w1 w2 : ScoringWeights)
    (sub : Substitute) :
    (buildCandidate rid req bc rules nowMs counts t1 w1 sub).details_json.speed_score =
      (buildCandidate rid req bc rules nowMs counts t2 w2 sub).details_json.speed_score ∧
    (buildCandidate rid req bc rules nowMs counts t1 w1 sub).details_json.logistics_score =
      (buildCandidate rid req bc rules nowMs counts t2 w2 sub).details_json.logistics_score ∧
    (buildCandidate rid req bc rules nowMs counts t1 w1 sub).details_json.load_score =
      (buildCandidate rid req bc rules nowMs counts t2 w2 sub).details_json.load_score ∧
    (buildCandidate rid req bc rules nowMs counts t1 w1 sub).details_json.eta_hours =
      (buildCandidate rid req bc rules nowMs counts t2 w2 sub).details_json.eta_hours ∧
    (buildCandidate rid req bc rules nowMs counts t1 w1 sub).details_json.travel_cost =
      (buildCandidate rid req bc rules nowMs counts t2 w2 sub).details_json.travel_cost ∧
    (buildCandidate rid req bc rules nowMs counts t1 w1 sub).details_json.travel_mode =
      (buildCandidate rid req bc rules nowMs counts t2 w2 sub).details_json.travel_mode ∧
    (buildCandidate rid req bc rules nowMs counts t1 w1 sub).details_json.distance_km =
      (buildCandidate rid req bc rules nowMs counts t2 w2 sub).details_json.distance_km ∧
    (buildCandidate rid req bc rules nowMs counts t1 w1 sub).details_json.recent_assignments =
      (buildCandidate rid req bc rules nowMs counts t2 w2 sub).details_json.recent_assignments ∧
    (buildCandidate rid req bc rules nowMs counts t1 w1 sub).logistics_json =
      (buildCandidate rid req bc rules nowMs counts t2 w2 sub).logistics_json ∧
    (buildCandidate rid req bc rules nowMs counts t1 w1 sub).details_json.weights = w1 ∧
    (buildCandidate rid req bc rules nowMs counts t1 w1 sub).scenario_type = t1 ∧
    (buildCandidate rid req bc rules nowMs counts t1 w1 sub).score =
      (buildCandidate rid req bc rules nowMs counts t1 w1 sub).details_json.logistics_score.map
        (fun ls =>
          (buildCandidate rid req bc rules nowMs counts t1 w1 sub).details_json.speed_score *
              w1.speed +
            ls * w1.logistics +
            (buildCandidate rid req bc rules nowMs counts t1 w1 sub).details_json.load_score *
              w1.load) :=
  ⟨rfl, rfl, rfl, rfl, rfl, rfl, rfl, rfl, rfl, rfl, rfl, rfl⟩

/-! Helper lemmas about the stable sort and the ranked lists. -/

theorem filter_scoreEq_orderedInsert (a : Candidate) (l : List Candidate)
    (s : ℝ) :
    (List.orderedInsert scoreDesc a l).filter
        (fun c => decide (scoreValue c = s)) =
      if scoreValue a = s
      then a :: l.filter (fun c => decide (scoreValue c = s))
      else l.filter (fun c => decide (scoreValue c = s)) := by
  induction l with
  | nil =>
    simp only [List.orderedInsert, List.filter]
    by_cases has : scoreValue a = s
    · simp [has]
    · simp [has]
  | cons b t ih =>
    by_cases hab : scoreDesc a b
    · simp only [List.orderedInsert, if_pos hab]
      by_cases has : scoreValue a = s
      · simp [List.filter_cons, has]
      · simp [List.filter_cons, has]
    · have hba : scoreValue a < scoreValue b := not_le.mp hab
      simp only [List.orderedInsert, if_neg hab]
      by_cases has : scoreValue a = s
      · have hbs : ¬(scoreValue b = s) := by
          intro hbs
          rw [has] at hba
          rw [hbs] at hba
          exact lt_irrefl s hba
        rw [if_pos has]
        simp only [List.filter_cons, ih, if_pos has]
        simp [hbs]
      · rw [if_neg has]
        simp only [List.filter_cons, ih, if_neg has]

theorem filter_scoreEq_sortCandidates (l : List Candidate) (s : ℝ) :
    (sortCandidates l).filter (fun c => decide (scoreValue c = s)) =
      l.filter (fun c => decide (scoreValue c = s)) := by
  induction l with
  | nil => rfl
  | cons a t ih =>
    simp only [sortCandidates, List.insertionSort] at ih ⊢
    rw [filter_scoreEq_orderedInsert]
    by_cases has : scoreValue a = s
    · rw [if_pos has, ih, List.filter_cons]
      simp [has]
    · rw [if_neg has, ih, List.filter_cons]
      simp [has]

theorem mem_rankScenario {rid : String} {req : RequestRow} {bc : ℝ × ℝ}
    {rules : Option LogisticsRules} {nowMs : ℝ}
    {counts : String → Option ℕ} {scType : String} {w : ScoringWeights}
    {subs : List Substitute} {c : Candidate}
    (hc : c ∈ rankScenario rid req bc rules nowMs counts scType w subs) :
    ∃ sub ∈ subs,
      c = buildCandidate rid req bc rules nowMs counts scType w sub := by
  simp only [rankScenario, sortCandidates] at hc
  have h1 := List.mem_of_mem_take hc
  have h2 := (List.perm_insertionSort scoreDesc _).mem_iff.mp h1
  rcases List.mem_map.mp h2 with ⟨sub, hsub, heq⟩
  exact ⟨sub, hsub, heq.symm⟩

theorem length_rankScenario_le (rid : String) (req : RequestRow)
    (bc : ℝ × ℝ) (rules : Option LogisticsRules) (nowMs : ℝ)
    (counts : String → Option ℕ) (scType : String) (w : ScoringWeights)
    (subs : List Substitute) :
    (rankScenario rid req bc rules nowMs counts scType w subs).length ≤
      5 := by
  simp only [rankScenario]
  rw [List.length_take]
  exact min_le_left 5 _

theorem sorted_rankScenario (rid : String) (req : RequestRow) (bc : ℝ × ℝ)
    (rules : Option LogisticsRules) (nowMs : ℝ)
    (counts : String → Option ℕ) (scType : String) (w : ScoringWeights)
    (subs : List Substitute) :
    List.Sorted scoreDesc
      (rankScenario rid req bc rules nowMs counts scType w subs) := by
  simp only [rankScenario, sortCandidates]
  exact List.Pairwise.sublist (List.take_sublist 5 _)
    (List.sorted_insertionSort scoreDesc _)

theorem score_isSome (rid : String) (req : RequestRow) (bc : ℝ × ℝ)
    (r : LogisticsRules) (nowMs : ℝ) (counts : String → Option ℕ)
    (scType : String) (w : ScoringWeights) (sub : Substitute) :
    (buildCandidate rid req bc (some r) nowMs counts scType w
      sub).score.isSome = true := by
  simp only [buildCandidate, calculateLogistics]
  split_ifs <;> simp

theorem mem_computeAllCandidates {rid : String}
    {settings : Option SettingsRows} {req : RequestRow} {nowMs : ℝ}
    {counts : String → Option ℕ} {subs : List Substitute} {c : Candidate}
    (hc : c ∈ computeAllCandidates rid settings req nowMs counts subs) :
    c.request_id = rid := by
  simp only [computeAllCandidates, List.mem_flatMap] at hc
  rcases hc with ⟨p, hp, hcp⟩
  rcases mem_rankScenario hcp with ⟨sub, hsub, rfl⟩
  rfl

theorem scenarioSlice_filter_ne (rid t : String) (l : List Candidate) :
    scenarioSlice rid t
      (l.filter (fun c => c.request_id ≠ rid)) = [] := by
  simp only [scenarioSlice, List.filter_filter]
  apply List.filter_eq_nil_iff.mpr
  intro a _
  simp only [Bool.and_eq_true, decide_eq_true_eq]
  rintro ⟨⟨h1, _⟩, h2⟩
  exact h2 h1

theorem filter_ne_then_eq_nil (rid : String) (l : List Candidate) :
    (l.filter (fun c => c.request_id ≠ rid)).filter
      (fun c => c.request_id = rid) = [] := by
  rw [List.filter_filter]
  apply List.filter_eq_nil_iff.mpr
  intro a _
  simp only [Bool.and_eq_true, decide_eq_true_eq]
  rintro ⟨h1, h2⟩
  exact h2 h1

theorem filter_ne_idem (rid : String) (l : List Candidate) :
    (l.filter (fun c => c.request_id ≠ rid)).filter
        (fun c => c.request_id ≠ rid) =
      l.filter (fun c => c.request_id ≠ rid) := by
  rw [List.filter_filter]
  apply List.filter_congr
  intro a _
  simp

theorem computeAll_filter_eq (rid : String) (settings : Option SettingsRows)
    (req : RequestRow) (nowMs : ℝ) (counts : String → Option ℕ)
    (subs : List Substitute) :
    (computeAllCandidates rid settings req nowMs counts subs).filter
        (fun c => c.request_id = rid) =
      computeAllCandidates rid settings req nowMs counts subs := by
  apply List.filter_eq_self.mpr
  intro c hc
  simp [mem_computeAllCandidates hc]

theorem computeAll_filter_ne_nil (rid : String)
    (settings : Option SettingsRows) (req : RequestRow) (nowMs : ℝ)
    (counts : String → Option ℕ) (subs : List Substitute) :
    (computeAllCandidates rid settings req nowMs counts subs).filter
      (fun c => c.request_id ≠ rid) = [] := by
  apply List.filter_eq_nil_iff.mpr
  intro c hc
  simp [mem_computeAllCandidates hc]

theorem scenarioSlice_rank_same (rid : String) (req : RequestRow)
    (bc : ℝ × ℝ) (rules : Option LogisticsRules) (nowMs : ℝ)
    (counts : String → Option ℕ) (t : String) (w : ScoringWeights)
    (subs : List Substitute) :
    scenarioSlice rid t
        (rankScenario rid req bc rules nowMs counts t w subs) =
      rankScenario rid req bc rules nowMs counts t w subs := by
  apply List.filter_eq_self.mpr
  intro c hc
  rcases mem_rankScenario hc with ⟨sub, _, rfl⟩
  simp [buildCandidate]

theorem scenarioSlice_rank_other (rid : String) (req : RequestRow)
    (bc : ℝ × ℝ) (rules : Option LogisticsRules) (nowMs : ℝ)
    (counts : String → Option ℕ) (t t2 : String) (w : ScoringWeights)
    (subs : List Substitute) (hne : t2 ≠ t) :
    scenarioSlice rid t
      (rankScenario rid req bc rules nowMs counts t2 w subs) = [] := by
  apply List.filter_eq_nil_iff.mpr
  intro c hc
  rcases mem_rankScenario hc with ⟨sub, _, rfl⟩
  simp [buildCandidate, hne]

theorem scenarioSlice_append (rid t : String) (l1 l2 : List Candidate) :
    scenarioSlice rid t (l1 ++ l2) =
      scenarioSlice rid t l1 ++ scenarioSlice rid t l2 := by
  simp [scenarioSlice]

theorem scenarioSlice_computeAll (rid : String)
    (settings : Option SettingsRows) (req : RequestRow) (nowMs : ℝ)
    (counts : String → Option ℕ) (subs : List Substitute) (t : String)
    (wt : ScoringWeights) (hmem : (t, wt) ∈ runScenarios settings) :
    scenarioSlice rid t
        (computeAllCandidates rid settings req nowMs counts subs) =
      rankScenario rid req (req.branch_coords.getD (0, 0))
        (loadLogisticsRules settings) nowMs counts t wt subs := by
  simp only [runScenarios, List.mem_cons, List.mem_singleton,
    List.not_mem_nil, or_false] at hmem
  rcases hmem with h | h | h
  all_goals
    rw [Prod.ext_iff] at h
    obtain ⟨ht, hw⟩ := h
    subst ht
    subst hw
  · simp only [computeAllCandidates, runScenarios, List.flatMap_cons,
      List.flatMap_nil, List.append_nil, scenarioSlice_append,
      scenarioSlice_rank_same]
    rw [scenarioSlice_rank_other _ _ _ _ _ _ _ _ _ _ (by decide),
      scenarioSlice_rank_other _ _ _ _ _ _ _ _ _ _ (by decide)]
    simp
  · simp only [computeAllCandidates, runScenarios, List.flatMap_cons,
      List.flatMap_nil, List.append_nil, scenarioSlice_append,
      scenarioSlice_rank_same]
    rw [scenarioSlice_rank_other _ _ _ _ _ _ _ _ _ _ (by decide),
      scenarioSlice_rank_other _ _ _ _ _ _ _ _ _ _ (by decide)]
    simp
  · simp only [computeAllCandidates, runScenarios, List.flatMap_cons,
      List.flatMap_nil, List.append_nil, scenarioSlice_append,
      scenarioSlice_rank_same]
    rw [scenarioSlice_rank_other _ _ _ _ _ _ _ _ _ _ (by decide),
      scenarioSlice_rank_other _ _ _ _ _ _ _ _ _ _ (by decide)]
    simp

theorem runMatch_shape (env : RunEnv) (st : DBState) (req : RequestRow)
    (subs : List Substitute) (h1 : env.reqFetch = some req)
    (h2 : env.subsFetch = some subs) (h3 : env.deleteOk = true)
    (h4 : env.insertOk = true) :
    (runMatch env st).1.candidates =
      st.candidates.filter (fun c => c.request_id ≠ env.request_id) ++
        computeAllCandidates env.request_id env.settings req env.nowMs
          env.counts subs ∧
    (runMatch env st).2 =
      RunResult.success
        (computeAllCandidates env.request_id env.settings req env.nowMs
          env.counts subs).length ["default", "fast", "near"] ∧
    (runMatch env st).1.statuses =
      (if env.updateOk then
        (fun i => if i = env.request_id then "matching" else st.statuses i)
       else st.statuses) := by
  simp only [runMatch, h1, h2, h3, h4, eq_self_iff_true, if_true]
  by_cases hlen : 0 < (computeAllCandidates env.request_id env.settings req
      env.nowMs env.counts subs).length
  · rw [if_pos hlen]
    refine ⟨?_, rfl, ?_⟩
    · by_cases hu : env.updateOk = true <;> simp [hu]
    · by_cases hu : env.updateOk = true <;> simp [hu]
  · rw [if_neg hlen]
    have hA : computeAllCandidates env.request_id env.settings req env.nowMs
        env.counts subs = [] := List.eq_nil_of_length_eq_zero (by omega)
    rw [hA]
    refine ⟨?_, rfl, ?_⟩
    · by_cases hu : env.updateOk = true <;> simp [hu]
    · by_cases hu : env.updateOk = true <;> simp [hu]

/-- C2: each scenario list holds at most 5 candidates, each built from
a pool entry; it is sorted descending by final score by the stable
sort, whose exact-tie classes keep the original pool iteration order
(the filter of the sorted list at any fixed score equals the filter of
the unsorted pool image); all scores are present when the rules value
is present; and after a successful run the persisted rows of the
request and a scenario type are exactly that scenario's ranked list,
so at most one candidate set exists per (request, scenario_type). -/
theorem c2_scenario_ranking (rid : String) (req : RequestRow) (bc : ℝ × ℝ)
    (r : LogisticsRules) (nowMs : ℝ) (counts : String → Option ℕ)
    (scType : String) (w : ScoringWeights) (subs : List Substitute)
    (env : RunEnv) (st : DBState) (req2 : RequestRow)
    (subs2 : List Substitute) (h1 : env.reqFetch = some req2)
    (h2 : env.subsFetch = some subs2) (h3 : env.deleteOk = true)
    (h4 : env.insertOk = true) :
    (rankScenario rid req bc (some r) nowMs counts scType w subs).length ≤
      5 ∧
    (∀ c ∈ rankScenario rid req bc (some r) nowMs counts scType w subs,
      ∃ sub ∈ subs,
        c = buildCandidate rid req bc (some r) nowMs counts scType w sub) ∧
    List.Sorted scoreDesc
      (rankScenario rid req bc (some r) nowMs counts scType w subs) ∧
    (∀ c ∈ rankScenario rid req bc (some r) nowMs counts scType w subs,
      c.score.isSome = true) ∧
    (∀ s : ℝ,
      (sortCandidates (subs.map
          (buildCandidate rid req bc (some r) nowMs counts scType
            w))).filter (fun c => decide (scoreValue c = s)) =
        (subs.map
          (buildCandidate rid req bc (some r) nowMs counts scType
            w)).filter (fun c => decide (scoreValue c = s))) ∧
    (∀ t : String, ∀ wt : ScoringWeights,
      (t, wt) ∈ runScenarios env.settings →
      scenarioSlice env.request_id t (runMatch env st).1.candidates =
        rankScenario env.request_id req2 (req2.branch_coords.getD (0, 0))
          (loadLogisticsRules env.settings) env.nowMs env.counts t wt
          subs2) := by
  refine ⟨length_rankScenario_le rid req bc (some r) nowMs counts scType w
    subs, ?_, sorted_rankScenario rid req bc (some r) nowMs counts scType w
    subs, ?_, ?_, ?_⟩
  · intro c hc
    exact mem_rankScenario hc
  · intro c hc
    rcases mem_rankScenario hc with ⟨sub, _, rfl⟩
    exact score_isSome rid req bc r nowMs counts scType w sub
  · intro s
    exact filter_scoreEq_sortCandidates _ s
  · intro t wt hmem
    rw [(runMatch_shape env st req2 subs2 h1 h2 h3 h4).1,
      scenarioSlice_append, scenarioSlice_filter_ne, List.nil_append,
      scenarioSlice_computeAll env.request_id env.settings req2 env.nowMs
        env.counts subs2 t wt hmem]

/-- C2 witness: the invariants applied to the healthy empty-pool run
and the default scenario. -/
theorem c2_witness :
    (envEmptyPool.reqFetch = some reqR1 ∧ envEmptyPool.subsFetch = some [] ∧
      envEmptyPool.deleteOk = true ∧ envEmptyPool.insertOk = true) ∧
    (rankScenario "r1" reqR1 (0, 0) (some documentedLogisticsRules) 0
        (fun _ => none) "default" ⟨0.4, 0.35, 0.25⟩ []).length ≤ 5 ∧
    scenarioSlice envEmptyPool.request_id "default"
        (runMatch envEmptyPool stEmpty).1.candidates =
      rankScenario envEmptyPool.request_id reqR1
        (reqR1.branch_coords.getD (0, 0))
        (loadLogisticsRules envEmptyPool.settings) envEmptyPool.nowMs
        envEmptyPool.counts "default"
        (loadScoringWeights envEmptyPool.settings) [] :=
  ⟨⟨rfl, rfl, rfl, rfl⟩,
   (c2_scenario_ranking "r1" reqR1 (0, 0) documentedLogisticsRules 0
      (fun _ => none) "default" ⟨0.4, 0.35, 0.25⟩ [] envEmptyPool stEmpty
      reqR1 [] rfl rfl rfl rfl).1,
   (c2_scenario_ranking "r1" reqR1 (0, 0) documentedLogisticsRules 0
      (fun _ => none) "default" ⟨0.4, 0.35, 0.25⟩ [] envEmptyPool stEmpty
      reqR1 [] rfl rfl rfl rfl).2.2.2.2.2 "default"
      (loadScoringWeights envEmptyPool.settings)
      (List.mem_cons_self _ _)⟩

/-- C8: with the fetch outcomes, configuration, counts and evaluation
time fixed and a healthy store, the run result and the persisted
candidate set of the request do not depend on the prior persisted
state, and running the match a second time immediately after returns
the identical response and leaves the state exactly as after the first
run. -/
theorem c8_deterministic_idempotent (env : RunEnv) (req : RequestRow)
    (subs : List Substitute) (h1 : env.reqFetch = some req)
    (h2 : env.subsFetch = some subs) (h3 : env.deleteOk = true)
    (h4 : env.insertOk = true) :
    (∀ st st2 : DBState,
      (runMatch env st).2 = (runMatch env st2).2 ∧
      (runMatch env st).1.candidates.filter
          (fun c => c.request_id = env.request_id) =
        (runMatch env st2).1.candidates.filter
          (fun c => c.request_id = env.request_id)) ∧
    (∀ st : DBState, runMatch env (runMatch env st).1 = runMatch env st) := by
  constructor
  · intro st st2
    have ea := runMatch_shape env st req subs h1 h2 h3 h4
    have eb := runMatch_shape env st2 req subs h1 h2 h3 h4
    refine ⟨?_, ?_⟩
    · rw [ea.2.1, eb.2.1]
    · rw [ea.1, eb.1, List.filter_append, List.filter_append,
        filter_ne_then_eq_nil, filter_ne_then_eq_nil]
  · intro st
    have ea := runMatch_shape env st req subs h1 h2 h3 h4
    have eb := runMatch_shape env (runMatch env st).1 req subs h1 h2 h3 h4
    have hcand : (runMatch env (runMatch env st).1).1.candidates =
        (runMatch env st).1.candidates := by
      rw [eb.1, ea.1, List.filter_append, filter_ne_idem,
        computeAll_filter_ne_nil, List.append_nil]
    have hstat : (runMatch env (runMatch env st).1).1.statuses =
        (runMatch env st).1.statuses := by
      rw [eb.2.2, ea.2.2]
      by_cases hu : env.updateOk = true
      · simp only [hu, if_true]
        funext i
        by_cases hi : i = env.request_id <;> simp [hi]
      · simp [hu]
    have hresp : (runMatch env (runMatch env st).1).2 =
        (runMatch env st).2 := by
      rw [eb.2.1, ea.2.1]
    exact Prod.ext_iff.mpr ⟨DBState.ext hcand hstat, hresp⟩

/-- C8 witness: idempotence applied to the healthy run over the
one-substitute pool from the empty prior state. -/
theorem c8_witness :
    (envC6.reqFetch = some reqR1 ∧ envC6.subsFetch = some [subBad] ∧
      envC6.deleteOk = true ∧ envC6.insertOk = true) ∧
    runMatch envC6 (runMatch envC6 stEmpty).1 = runMatch envC6 stEmpty :=
  ⟨⟨rfl, rfl, rfl, rfl⟩,
   (c8_deterministic_idempotent envC6 reqR1 [subBad] rfl rfl rfl rfl).2
     stEmpty⟩

end CoverCrew
